import Mathlib

/-!
Shallow embedding of the DevFlow AI agent core (src/src/agent/graph.py) and a
verification of the frozen specification claims against it.

Python strings are modelled as Lean `String`, Python floats as `ℚ` (the
numeric literals involved are exactly representable), Python `datetime`
values as an abstract day index plus wall-clock fields, and fallible Python
calls (`raise`) as `Except String`.  External collaborators (the language
model, Google/GitHub services) appear as explicit input parameters.
-/

namespace DevFlow

/-- Python `str.lower()` (character-wise; adequate for the ASCII keyword
sets involved). Defined over the character list so it reduces in the kernel. -/
def pyLower (s : String) : String := ⟨s.data.map Char.toLower⟩

/-- Python `needle in haystack` substring test. -/
def strContains (haystack needle : String) : Bool :=
  haystack.data.tails.any (fun t => needle.data.isPrefixOf t)

/-! ## Natural-time resolver (graph.py, parse_natural_time) -/

/-- Python `datetime` value, abstracted: `day` is an absolute day index
(calendar structure is irrelevant to the resolver), the remaining fields are
the wall-clock components. Comparison is lexicographic, as in Python. -/
structure PyDateTime where
  day : Int
  hour : Nat
  minute : Nat
  second : Nat
  micro : Nat
deriving Repr, DecidableEq

/-- Python `datetime` ordering (strict), lexicographic on all fields. -/
def dtLt (a b : PyDateTime) : Bool :=
  a.day < b.day ∨ (a.day = b.day ∧
    (a.hour < b.hour ∨ (a.hour = b.hour ∧
      (a.minute < b.minute ∨ (a.minute = b.minute ∧
        (a.second < b.second ∨ (a.second = b.second ∧ a.micro < b.micro)))))))

/-- `dt + timedelta(days=n)`. -/
def addDays (dt : PyDateTime) (n : Int) : PyDateTime := { dt with day := dt.day + n }

/-- `dt + timedelta(minutes=n)`, the total arithmetic core (carry into hours
and days). The overflow-checked form used where the shift comes from the
input string is `addTimedelta` below. -/
def addMinutes (dt : PyDateTime) (n : Nat) : PyDateTime :=
  let total := dt.hour * 60 + dt.minute + n
  { dt with day := dt.day + total / 1440, hour := total % 1440 / 60, minute := total % 60 }

/-- The day index of Python's `datetime.max` date (the proleptic ordinal of
9999-12-31): datetime arithmetic whose result lies past this day raises
`OverflowError`. The fixed shifts of the lookup table (one or two hours,
one or seven days) and the one-day roll-forward are kept total in this model:
they can only overflow when `now` itself sits at the edge of the
representable range, which `datetime.now()` cannot produce. The duration
branch's shift, by contrast, is taken from the input string, so its overflow
path is modelled (`addTimedelta`). -/
def maxOrdinalDay : Int := 3652059

/-- Python `dt + timedelta(minutes=n)` (and `timedelta(hours=h)` via
`n = 60 * h`) with overflow semantics: constructing a timedelta whose
normalized day count exceeds 999999999 raises, and a result past
`datetime.max` raises `OverflowError: date value out of range`. -/
def addTimedelta (dt : PyDateTime) (n : Nat) : Except String PyDateTime :=
  if 999999999 < n / 1440 then
    .error ("days=" ++ toString (n / 1440) ++ "; must have magnitude <= 999999999")
  else
    let r := addMinutes dt n
    if r.day ≤ maxOrdinalDay then .ok r
    else .error "date value out of range"

/-- `dt.replace(hour := h, minute := m, second := 0, microsecond := 0)`,
assuming `h`/`m` are in range (used for the fixed lookup-table entries). -/
def setHM (dt : PyDateTime) (h m : Nat) : PyDateTime :=
  { dt with hour := h, minute := m, second := 0, micro := 0 }

/-- `dt.replace(hour := h, minute := m, second := 0, microsecond := 0)` with
Python semantics: raises `ValueError` when a component is out of range. -/
def replaceHM (dt : PyDateTime) (h m : Nat) : Except String PyDateTime :=
  if h ≤ 23 then
    if m ≤ 59 then .ok (setHM dt h m)
    else .error "minute must be in 0..59"
  else .error "hour must be in 0..23"

/-- Python whitespace class (`\s`, ASCII range), also what `str.strip()`
removes. -/
def isPySpace (c : Char) : Bool :=
  c = ' ' ∨ c = '\t' ∨ c = '\n' ∨ c = '\x0d' ∨ c = '\x0c' ∨ c = '\x0b'

/-- Python `str.strip()`. -/
def pyStrip (s : String) : String :=
  ⟨(s.data.dropWhile isPySpace).reverse.dropWhile isPySpace |>.reverse⟩

/-- graph.py line 475: `time_str.lower().strip()`. -/
def pyNorm (s : String) : String := pyStrip (pyLower s)

/-- graph.py lines 478-492: the fixed phrase-lookup table, as a function
(the dict values are all computed from `now`; every entry is in range). -/
def timeMapping (now : PyDateTime) (s : String) : Option PyDateTime :=
  if s = "now" then some now
  else if s = "in an hour" then some (addMinutes now 60)
  else if s = "in 2 hours" then some (addMinutes now 120)
  else if s = "after lunch" then some (setHM now 13 0)
  else if s = "lunch" then some (setHM now 12 0)
  else if s = "morning" then some (setHM now 9 0)
  else if s = "afternoon" then some (setHM now 14 0)
  else if s = "evening" then some (setHM now 18 0)
  else if s = "tonight" then some (setHM now 19 0)
  else if s = "tomorrow" then some (setHM (addDays now 1) 9 0)
  else if s = "tomorrow morning" then some (setHM (addDays now 1) 9 0)
  else if s = "tomorrow afternoon" then some (setHM (addDays now 1) 14 0)
  else if s = "next week" then some (setHM (addDays now 7) 9 0)
  else none

/-- Numeric value of a digit run. -/
def digitsVal (ds : List Char) : Nat :=
  ds.foldl (fun a c => a * 10 + (c.toNat - 48)) 0

/-- One attempt of the regex `at (\d{1,2})(?::(\d{2}))?\s*(am|pm)?` at the
head of `cs`: literal `at `, then one or two digits (greedy), then an
optional `:DD` group (skipped unless a colon is followed by two digits),
optional whitespace, optional `am`/`pm`. Returns `(hour, minute, period)`. -/
def tryAtMatch (cs : List Char) : Option (Nat × Nat × Option String) :=
  match cs with
  | 'a' :: 't' :: ' ' :: rest =>
    match rest with
    | d1 :: rest1 =>
      if d1.isDigit then
        let (hourDigits, rest2) :=
          match rest1 with
          | d2 :: rest2 => if d2.isDigit then ([d1, d2], rest2) else ([d1], rest1)
          | [] => ([d1], rest1)
        let (minute, rest3) :=
          match rest2 with
          | ':' :: m1 :: m2 :: rest3 =>
            if m1.isDigit ∧ m2.isDigit then (digitsVal [m1, m2], rest3) else (0, rest2)
          | _ => (0, rest2)
        let rest4 := rest3.dropWhile isPySpace
        let period : Option String :=
          if ['a', 'm'].isPrefixOf rest4 then some "am"
          else if ['p', 'm'].isPrefixOf rest4 then some "pm"
          else none
        some (digitsVal hourDigits, minute, period)
      else none
    | [] => none
  | _ => none

/-- `re.search` of the `at H[:MM][am|pm]` pattern: first position at which
`tryAtMatch` succeeds, scanning left to right. -/
def findAt (cs : List Char) : Option (Nat × Nat × Option String) :=
  match cs with
  | [] => none
  | _ :: rest =>
    match tryAtMatch cs with
    | some r => some r
    | none => findAt rest

/-- One attempt of the regex `in (\d+)\s*(hour|minute)s?` at the head of
`cs`: literal `in `, a nonempty digit run (greedy), optional whitespace,
then the literal unit word. Returns `(amount, unit)`. -/
def tryDurationMatch (cs : List Char) : Option (Nat × String) :=
  match cs with
  | 'i' :: 'n' :: ' ' :: rest =>
    let ds := rest.takeWhile Char.isDigit
    if ds.isEmpty then none
    else
      let rest2 := (rest.drop ds.length).dropWhile isPySpace
      if ['h', 'o', 'u', 'r'].isPrefixOf rest2 then some (digitsVal ds, "hour")
      else if ['m', 'i', 'n', 'u', 't', 'e'].isPrefixOf rest2 then some (digitsVal ds, "minute")
      else none
  | _ => none

/-- `re.search` of the duration pattern: first position at which a full
match succeeds. -/
def findDuration (cs : List Char) : Option (Nat × String) :=
  match cs with
  | [] => none
  | _ :: rest =>
    match tryDurationMatch cs with
    | some r => some r
    | none => findDuration rest

/-- graph.py lines 504-507: the 12-hour conversion applied to a matched
hour: `pm` adds 12 when the hour is < 12; `am` maps hour 12 to 0. -/
def adjustHour (h : Nat) (period : Option String) : Nat :=
  if period = some "pm" ∧ h < 12 then h + 12
  else if period = some "am" ∧ h = 12 then 0
  else h

/-- Result of the resolver: an absolute timestamp (returned in Python as an
ISO string, modelled by the timestamp itself) or the raw phrase fallback. -/
inductive TimeRes where
  | dt (t : PyDateTime)
  | raw (s : String)
deriving Repr, DecidableEq

/-- graph.py lines 473-529, `parse_natural_time`. `now` (`datetime.now()`
in the source) is passed explicitly. An `Except.error` models the Python
exceptions the function can raise: the `ValueError` of `datetime.replace`
on an out-of-range component, and the `OverflowError` of
`now + timedelta(...)` in the duration branch when the input-supplied
amount pushes past the representable datetime range. -/
def parse_natural_time (input : String) (now : PyDateTime) : Except String TimeRes :=
  let time_str := pyNorm input
  match timeMapping now time_str with
  | some t => .ok (.dt t)
  | none =>
    match findAt time_str.data with
    | some (h, m, period) =>
      match replaceHM now (adjustHour h period) m with
      | .error e => .error e
      | .ok target =>
        .ok (.dt (if dtLt target now then addDays target 1 else target))
    | none =>
      match findDuration time_str.data with
      | some (amount, unit) =>
        match (if unit = "hour" then addTimedelta now (60 * amount)
               else addTimedelta now amount) with
        | .error e => .error e
        | .ok target => .ok (.dt target)
      | none => .ok (.raw time_str)

/-! ## Tool validator (graph.py, validate_tool_call) -/

/-- A dynamically typed argument value that the validator feeds to Python
`float(...)`: either a numeric value (a number, or a numeric string — both
parse) or a non-numeric value on which `float` raises. -/
inductive DurVal where
  | num (q : ℚ)
  | nonNumeric (s : String)
deriving Repr, DecidableEq

/-- The string-keyed argument mapping of a proposed tool call, restricted to
the keys the validator inspects (all optional — `args.get`); other keys are
never read by the embedded code and are elided. `start_time_res` holds the
value written back by `args["start_time"] = parsed_time` (the resolved
timestamp; its ISO rendering is modelled by the timestamp itself). -/
structure ToolArgs where
  summary : Option String := none
  start_time : Option String := none
  start_time_res : Option TimeRes := none
  duration_hours : Option DurVal := none
  title : Option String := none
  priority : Option String := none
  estimated_hours : Option DurVal := none
deriving Repr, DecidableEq

/-- graph.py lines 532-569, `validate_tool_call`: returns the `(ok, reason)`
pair together with the (possibly rewritten) argument mapping. `now` is the
clock consulted by the nested `parse_natural_time` call. -/
def validate_tool_call (now : PyDateTime) (tool_name : String) (args : ToolArgs) :
    Bool × String × ToolArgs :=
  if tool_name = "create_calendar_event" then
    if (args.summary.getD "") = "" then (false, "Event title is required", args)
    else
      let start_time := args.start_time.getD ""
      match parse_natural_time start_time now with
      | .error e =>
        (false, "Could not parse time " ++ start_time ++ ": " ++ e, args)
      | .ok parsed_time =>
        let args := { args with start_time_res := some parsed_time }
        match args.duration_hours.getD (.num 1) with
        | .nonNumeric _ => (false, "Duration must be a valid number", args)
        | .num duration =>
          let args := { args with duration_hours := some (.num duration) }
          if duration < 0.25 ∨ duration > 12 then
            (false, "Duration must be between 15 minutes and 12 hours", args)
          else (true, "", args)
  else if tool_name = "create_task" then
    if (args.title.getD "") = "" then (false, "Task title is required", args)
    else
      let priority := args.priority.getD "medium"
      if priority ∉ ["low", "medium", "high", "critical"] then
        (false, "Priority must be low, medium, high, or critical", args)
      else
        match args.estimated_hours with
        | none => (true, "", args)
        | some (.nonNumeric _) => (false, "Estimated hours must be a valid number", args)
        | some (.num q) => (true, "", { args with estimated_hours := some (.num q) })
  else (true, "", args)

/-- A proposed tool call as returned by the language model
(`response.tool_calls` entries: name plus argument mapping). -/
structure ToolCall where
  name : String
  args : ToolArgs
deriving Repr, DecidableEq

/-- A record of one proposed tool call, as appended to
`state["tool_calls"]` by `call_model` (graph.py lines 892-903): the tool
name, the rewritten argument mapping, `status` of "valid" or "invalid", and
an error reason exactly on invalid records. -/
structure ActionRecord where
  tool : String
  args : ToolArgs := {}
  status : String
  error : Option String := none
deriving Repr, DecidableEq

/-! ## Response classifier (graph.py, classify_output) -/

/-- graph.py lines 47-51: ERROR indicator substrings. -/
def error_patterns : List String :=
  ["error", "failed", "could not", "couldn\x27t", "unable to",
   "not found", "invalid", "incorrect", "❌", "cannot",
   "exception", "crashed", "broken"]

/-- graph.py lines 63-67: WARNING indicator substrings. -/
def warning_patterns : List String :=
  ["blocked", "overdue", "high priority", "urgent", "pending",
   "attention", "⚠️", "limited", "quota", "exceeded",
   "missing", "incomplete"]

/-- graph.py lines 75-79: SUCCESS indicator substrings. -/
def success_patterns : List String :=
  ["created", "scheduled", "completed", "updated", "deleted",
   "✅", "successfully", "done", "finished", "saved",
   "confirmed", "added"]

/-- graph.py lines 38-91, `classify_output`: the detailed response
classifier, translated clause by clause (early `return`s become an
`if`-cascade; `if tool_calls:` guards become conjuncts). -/
def classify_output (response : String) (tool_calls : List ActionRecord) : String :=
  let response_lower := pyLower response
  if error_patterns.any (fun p => strContains response_lower p) then "error"
  else if ¬tool_calls.isEmpty ∧
      ¬(tool_calls.filter (fun tc => tc.status = "invalid")).isEmpty then "error"
  else if warning_patterns.any (fun p => strContains response_lower p) ∧
      2 ≤ (warning_patterns.filter (fun p => strContains response_lower p)).length then
    "warning"
  else if success_patterns.any (fun p => strContains response_lower p) then "success"
  else if ¬tool_calls.isEmpty ∧
      ¬(tool_calls.filter (fun tc => tc.status = "valid")).isEmpty then "success"
  else "info"

/-- Modelled from the spec, section 4.4: the classifier contract as worded
there — a deterministic cascade where the first matching rule wins: error
keyword; else any invalid record; else at least two distinct warning-keyword
matches; else any success keyword; else any valid record; else info. -/
def classifyCascadeSpec (response : String) (records : List ActionRecord) : String :=
  let text := pyLower response
  if error_patterns.any (fun p => strContains text p) then "error"
  else if records.any (fun r => r.status = "invalid") then "error"
  else if 2 ≤ (warning_patterns.filter (fun p => strContains text p)).length then "warning"
  else if success_patterns.any (fun p => strContains text p) then "success"
  else if records.any (fun r => r.status = "valid") then "success"
  else "info"

/-! ## Deciding-step batching (graph.py, call_model / should_continue) -/

/-- graph.py lines 879-906, the validation loop of `call_model`: from the
proposed batch, build one `ActionRecord` per proposal and collect the valid
proposals; then `response.tool_calls` is reassigned to the valid subset
*only when that subset is non-empty* (`if validated_tool_calls:` — an empty
Python list is falsy), otherwise it is left as the original batch. Returns
the final `response.tool_calls` batch and the new records. -/
def call_model_validate (now : PyDateTime) (responseToolCalls : List ToolCall) :
    List ToolCall × List ActionRecord :=
  let tool_calls := responseToolCalls.map (fun tc =>
    let r := validate_tool_call now tc.name tc.args
    if r.1 then ({ tool := tc.name, args := r.2.2, status := "valid" } : ActionRecord)
    else { tool := tc.name, args := r.2.2, status := "invalid", error := some r.2.1 })
  let validated_tool_calls := responseToolCalls.filter
    (fun tc => (validate_tool_call now tc.name tc.args).1)
  let newBatch := if validated_tool_calls.isEmpty then responseToolCalls
                  else validated_tool_calls
  (newBatch, tool_calls)

/-- Message roles occurring in the embedded code. -/
inductive Role where
  | human
  | system
  | ai
  | tool
deriving Repr, DecidableEq

/-- A conversation message. Non-assistant messages carry an empty
`tool_calls` list (in Python they lack the attribute; `should_continue`
treats both the same way). -/
structure Message where
  role : Role
  content : String
  tool_calls : List ToolCall := []
deriving Repr, DecidableEq

/-- graph.py lines 572-580, `should_continue`: route to the tools node
exactly when the last message carries a non-empty tool-call batch.
`messages[-1]` on an empty history raises in Python, modelled as `none`. -/
def should_continue (messages : List Message) : Option String :=
  match messages.getLast? with
  | none => none
  | some last_message =>
    some (if ¬last_message.tool_calls.isEmpty then "tools" else "end")

/-! ## Effort aggregator (graph.py, calculate_schedule_effort and helpers) -/

/-- Python `float(s)` on a capture of the class `[\d.]+`: succeeds exactly
when the run contains at most one dot and at least one digit. -/
def pyFloatRun (s : List Char) : Option ℚ :=
  let intPart := s.takeWhile Char.isDigit
  match s.drop intPart.length with
  | [] => if intPart.isEmpty then none else some (digitsVal intPart)
  | '.' :: fracPart =>
    if fracPart.all Char.isDigit ∧ ¬(intPart.isEmpty ∧ fracPart.isEmpty) then
      some ((digitsVal intPart : ℚ) + (digitsVal fracPart : ℚ) / 10 ^ fracPart.length)
    else none
  | _ => none

/-- One attempt of the regex `Est:\s*([\d.]+)h` at the head of `cs`:
literal `Est:`, optional whitespace, a nonempty run of digits and dots
(greedy), then a literal `h`. Returns the captured run. -/
def tryEstMatch (cs : List Char) : Option (List Char) :=
  if ['E', 's', 't', ':'].isPrefixOf cs then
    let rest := (cs.drop 4).dropWhile isPySpace
    let run := rest.takeWhile (fun c => c.isDigit ∨ c = '.')
    if ¬run.isEmpty ∧ (rest.drop run.length).head? = some 'h' then some run else none
  else none

/-- `re.search` of the `Est:` pattern over a line. -/
def findEst (cs : List Char) : Option (List Char) :=
  match cs with
  | [] => none
  | _ :: rest =>
    match tryEstMatch cs with
    | some r => some r
    | none => findEst rest

/-- One attempt of the regex `\((\d+\.?\d*)h` at the head of `cs`: a
literal `(`, a nonempty digit run, an optional dot followed by a digit run,
then a literal `h`. Returns the captured run. -/
def tryParenMatch (cs : List Char) : Option (List Char) :=
  match cs with
  | '(' :: rest =>
    let d1 := rest.takeWhile Char.isDigit
    if d1.isEmpty then none
    else
      match rest.drop d1.length with
      | '.' :: r3 =>
        let d2 := r3.takeWhile Char.isDigit
        if (r3.drop d2.length).head? = some 'h' then some (d1 ++ ['.'] ++ d2) else none
      | 'h' :: _ => some d1
      | _ => none
  | _ => none

/-- `re.search` of the parenthesized-hours pattern over a line. -/
def findParenHours (cs : List Char) : Option (List Char) :=
  match cs with
  | [] => none
  | _ :: rest =>
    match tryParenMatch cs with
    | some r => some r
    | none => findParenHours rest

/-- Helper for `splitLines`: accumulate the current line. -/
def splitLinesAux : List Char → List Char → List String
  | [], acc => [⟨acc.reverse⟩]
  | '\n' :: rest, acc => (⟨acc.reverse⟩ : String) :: splitLinesAux rest []
  | c :: rest, acc => splitLinesAux rest (c :: acc)

/-- Python `s.split('\n')`. -/
def splitLines (s : String) : List String := splitLinesAux s.data []

/-- graph.py lines 259-267: sum estimated hours (and count contributing
lines) over the pending-task text: lines containing `Est:` whose pattern
match yields a float-parsable run. A run on which `float` raises is skipped
by the inner `except`. -/
def parsePending (tasks_result : String) : ℚ × Nat :=
  (splitLines tasks_result).foldl
    (fun acc line =>
      if strContains line "Est:" then
        match findEst line.data with
        | some run =>
          match pyFloatRun run with
          | some q => (acc.1 + q, acc.2 + 1)
          | none => acc
        | none => acc
      else acc)
    (0, 0)

/-- graph.py lines 274-282: sum scheduled hours (and count contributing
lines) over the calendar text: lines containing both `(` and `h)` whose
parenthesized-hours pattern matches. -/
def parseScheduled (calendar_result : String) : ℚ × Nat :=
  (splitLines calendar_result).foldl
    (fun acc line =>
      if strContains line "(" ∧ strContains line "h)" then
        match findParenHours line.data with
        | some run =>
          match pyFloatRun run with
          | some q => (acc.1 + q, acc.2 + 1)
          | none => acc
        | none => acc
      else acc)
    (0, 0)

/-- Round-half-to-even to an integer, the rounding Python `round` uses. -/
def roundHalfEven (q : ℚ) : ℤ :=
  let f := ⌊q⌋
  let r := q - f
  if r < 1 / 2 then f
  else if r > 1 / 2 then f + 1
  else if f % 2 = 0 then f else f + 1

/-- Python `round(q, 1)`. -/
def round1 (q : ℚ) : ℚ := (roundHalfEven (q * 10) : ℚ) / 10

/-- Render a one-decimal value, Python `f"{q:.1f}"`. -/
def fmt1 (q : ℚ) : String :=
  let n := roundHalfEven (q * 10)
  let an := n.natAbs
  (if n < 0 then "-" else "") ++ toString (an / 10) ++ "." ++ toString (an % 10)

/-- The issue and pull-request data the GitHub fetch yields when it
succeeds: the derived priority label of each assigned issue (graph.py lines
174-180 — `critical`, `high`, `medium` or `low`) and the number of open
pull requests. The issue/PR detail lists are elided (never read by the
embedded code). -/
structure GithubFetch where
  issue_priorities : List String
  pr_count : Nat
deriving Repr, DecidableEq

/-- The dictionary returned by `get_github_workload`. -/
structure GithubData where
  total_issues : Nat
  total_prs : Nat
  estimated_hours : ℚ
  error : Option String
deriving Repr, DecidableEq

/-- graph.py lines 146-243, `get_github_workload`: priority-weighted hours
(critical 4, high 3, medium 2, otherwise 1) plus 0.5 per open pull request;
any exception (including a missing token, whose branch returns the same
zeroed shape) degrades to zeros with an error string. -/
def get_github_workload (fetch : Except String GithubFetch) : GithubData :=
  match fetch with
  | .error e => { total_issues := 0, total_prs := 0, estimated_hours := 0, error := some e }
  | .ok f =>
    let issueHours : ℚ := f.issue_priorities.foldl
      (fun acc p =>
        acc + (if p = "critical" then 4 else if p = "high" then 3
               else if p = "medium" then 2 else 1))
      0
    let estimated_hours := issueHours + (f.pr_count : ℚ) * 0.5
    { total_issues := f.issue_priorities.length
      total_prs := f.pr_count
      estimated_hours := round1 estimated_hours
      error := none }

/-- graph.py lines 299-310: the workload-tier classifier over total hours. -/
def effortLevelOf (total_hours : ℚ) : String :=
  if total_hours < 4 then "low"
  else if total_hours < 8 then "medium"
  else if total_hours < 12 then "high"
  else "overloaded"

/-- graph.py lines 299-310: the description paired with each tier. -/
def effortDescriptionOf (total_hours : ℚ) : String :=
  if total_hours < 4 then "Light workload - good opportunity for deep work or learning"
  else if total_hours < 8 then "Balanced workload - maintain steady pace"
  else if total_hours < 12 then "Heavy workload - prioritize and take breaks"
  else "Overloaded schedule - consider rescheduling or delegating"

/-- graph.py line 312: `utilization = (total_hours / standard_day) * 100`
with `standard_day = 8.0`. -/
def utilizationOf (total_hours : ℚ) : ℚ := total_hours / 8.0 * 100

/-- graph.py lines 326-351: the recommendation list attached to each tier. -/
def recommendationsOf (effort_level : String) : List String :=
  if effort_level = "low" then
    ["Good time to tackle complex tasks",
     "Consider scheduling focus time",
     "Review backlog for new tasks"]
  else if effort_level = "medium" then
    ["Maintain current pace",
     "Schedule regular breaks",
     "Monitor task completion"]
  else if effort_level = "high" then
    ["Prioritize high-impact tasks",
     "Defer low-priority items",
     "Block focus time, minimize meetings",
     "Take breaks every 90 minutes"]
  else
    ["⚠️ Reschedule non-urgent tasks",
     "⚠️ Consider delegating work",
     "⚠️ Communicate workload to team",
     "⚠️ Focus only on critical items"]

/-- The `analysis` sub-dictionary of the effort snapshot. -/
structure Analysis where
  summary : String
  utilization : String
  breakdown : List (String × String)
  recommendations : List String
deriving Repr, DecidableEq

/-- The dictionary returned by `calculate_schedule_effort`. -/
structure EffortData where
  effort_level : String
  total_hours : ℚ
  scheduled_hours : ℚ
  pending_hours : ℚ
  github_hours : ℚ
  utilization_percent : ℚ
  analysis : Analysis
  github_data : Option GithubData
deriving Repr, DecidableEq

/-- graph.py lines 364-379: the `except` branch of
`calculate_schedule_effort` — the fallback snapshot, with the fifth
`effort_level` value "unknown", every hours figure zero and no
recommendations. -/
def unknownSnapshot (e : String) : EffortData :=
  { effort_level := "unknown"
    total_hours := 0
    scheduled_hours := 0
    pending_hours := 0
    github_hours := 0
    utilization_percent := 0
    analysis :=
      { summary := "Could not calculate effort: " ++ e
        utilization := "N/A"
        breakdown := []
        recommendations := [] }
    github_data := none }

/-- graph.py lines 246-379, `calculate_schedule_effort`. The two fallible
external source calls — `list_tasks.invoke` and
`get_calendar_events.invoke` — are passed as `Except` values (the GitHub
fetch catches its own exceptions inside `get_github_workload`); the single
`try` around the whole body routes either failure to the fallback
snapshot. -/
def calculate_schedule_effort (tasksRes calendarRes : Except String String)
    (github : Except String GithubFetch) (include_github : Bool) : EffortData :=
  match tasksRes with
  | .error e => unknownSnapshot e
  | .ok tasks_result =>
    match calendarRes with
    | .error e => unknownSnapshot e
    | .ok calendar_result =>
      let (pending_hours, task_count) := parsePending tasks_result
      let (scheduled_hours, event_count) := parseScheduled calendar_result
      let github_data := if include_github then some (get_github_workload github) else none
      let github_hours := (github_data.map GithubData.estimated_hours).getD 0
      let github_issues := (github_data.map GithubData.total_issues).getD 0
      let github_prs := (github_data.map GithubData.total_prs).getD 0
      let total_hours := pending_hours + scheduled_hours + github_hours
      let effort_level := effortLevelOf total_hours
      let utilization := utilizationOf total_hours
      { effort_level := effort_level
        total_hours := round1 total_hours
        scheduled_hours := round1 scheduled_hours
        pending_hours := round1 pending_hours
        github_hours := round1 github_hours
        utilization_percent := round1 utilization
        analysis :=
          { summary := effortDescriptionOf total_hours
            utilization := fmt1 utilization ++ "%"
            breakdown :=
              [("scheduled_events",
                toString event_count ++ " events (" ++ fmt1 scheduled_hours ++ "h)"),
               ("pending_tasks",
                toString task_count ++ " tasks (" ++ fmt1 pending_hours ++ "h)"),
               ("github_work",
                toString github_issues ++ " issues + " ++ toString github_prs ++
                  " PRs (" ++ fmt1 github_hours ++ "h)"),
               ("total_workload", fmt1 total_hours ++ "h")]
            recommendations := recommendationsOf effort_level }
        github_data := github_data }

/-! ## Effort report formatting (graph.py, format_effort_report) -/

/-- Python `str.upper()` (character-wise). -/
def pyUpper (s : String) : String := ⟨s.data.map Char.toUpper⟩

/-- Python `str.replace(old, new)` for the single-character case
`key.replace('_', ' ')`. -/
def replaceUnderscores (s : String) : String :=
  ⟨s.data.map (fun c => if c = '_' then ' ' else c)⟩

/-- Helper for `pyTitle`: the flag records whether the previous character
was alphabetic. -/
def pyTitleAux : Bool → List Char → List Char
  | _, [] => []
  | prevAlpha, c :: rest =>
    (if c.isAlpha then (if prevAlpha then c.toLower else c.toUpper) else c) ::
      pyTitleAux c.isAlpha rest

/-- Python `str.title()`: capitalize the first letter of each run of
letters, lowercase the rest. -/
def pyTitle (s : String) : String := ⟨pyTitleAux false s.data⟩

/-- graph.py lines 386-392: the `effort_emoji` lookup of
`format_effort_report`, with its `.get(level, "⚪")` default. -/
def effortEmoji (level : String) : String :=
  if level = "low" then "🟢"
  else if level = "medium" then "🟡"
  else if level = "high" then "🟠"
  else if level = "overloaded" then "🔴"
  else if level = "unknown" then "⚪"
  else "⚪"

/-- graph.py lines 382-414, `format_effort_report`. -/
def format_effort_report (effort_data : EffortData) : String :=
  let level := effort_data.effort_level
  let emoji := effortEmoji level
  let report := "\n## 📊 Workload Analysis\n\n"
  let report := report ++ emoji ++ " **Effort Level**: " ++ pyUpper level ++ "\n\n"
  let analysis := effort_data.analysis
  let report := report ++ "**Summary**: " ++ analysis.summary ++ "\n\n"
  let report := report ++ "**Utilization**: " ++ analysis.utilization ++ "\n\n"
  let report :=
    if ¬analysis.breakdown.isEmpty then
      report ++ "### Breakdown\n\n" ++
        String.join (analysis.breakdown.map (fun kv =>
          "- **" ++ pyTitle (replaceUnderscores kv.1) ++ "**: " ++ kv.2 ++ "\n"))
    else report
  let report :=
    if ¬analysis.recommendations.isEmpty then
      report ++ "\n### Recommendations\n\n" ++
        String.join (analysis.recommendations.map (fun rec => "- " ++ rec ++ "\n"))
    else report
  report

/-! ## Orchestration entry point (graph.py, run_agent) -/

/-- graph.py lines 99-110: the explicit effort-inquiry phrase list. -/
def explicit_keywords : List String :=
  ["how am i doing", "how busy am i", "workload", "effort level",
   "analyze my schedule", "am i overloaded", "show my workload",
   "check my effort", "how loaded am i", "schedule analysis"]

/-- graph.py lines 94-113, `should_include_effort_analysis`. -/
def should_include_effort_analysis (user_input : String) : Bool :=
  explicit_keywords.any (fun keyword => strContains (pyLower user_input) keyword)

/-- graph.py lines 962-963: the planning-intent phrase list of `run_agent`. -/
def planning_keywords : List String :=
  ["plan my day", "what do i have today", "daily summary",
   "today\x27s work", "show my schedule"]

/-- The dictionary produced by `get_daily_work_summary` (graph.py lines
417-470). Its construction only repackages counts scraped from the three
external sources; `run_agent` stores it verbatim, so it enters the model as
external data. -/
structure DailySummary where
  events_today : Nat
  tasks_pending : Nat
  github_issues : Nat
  github_prs : Nat
  github_data : GithubData
  summary : String
deriving Repr, DecidableEq

/-- The `AgentState` dictionary (state.py) restricted to the keys the
embedded code reads or writes; `current_task`, `tasks`, `sessions`,
`reflection` and `user_context` are never touched by the embedded paths and
are elided. Optional fields model keys that may be absent. -/
structure AgentState where
  messages : List Message := []
  tool_calls : List ActionRecord := []
  classification : Option String := none
  github_data : Option GithubData := none
  daily_summary : Option DailySummary := none
  effort_analysis : Option EffortData := none
deriving Repr, DecidableEq

/-- The external effects consumed by one `run_agent` call: the outcome of
`agent_graph.invoke` (the final state, or the exception it raised), the
daily work summary, and the three sources consulted by
`calculate_schedule_effort`. -/
structure Effects where
  invokeResult : Except String AgentState
  daily : DailySummary
  tasksRes : Except String String
  calendarRes : Except String String
  github : Except String GithubFetch
deriving Repr

/-- Append `extra` to the content of the last message
(`result["messages"][-1].content += ...`). -/
def appendToLastContent (messages : List Message) (extra : String) : List Message :=
  match messages.getLast? with
  | none => messages
  | some last => messages.dropLast ++ [{ last with content := last.content ++ extra }]

/-- graph.py lines 941-997, `run_agent`. The `try` body is entered after
the user message is appended; a raising graph invocation routes to the
`except` branch, which appends a marked error message and sets
`classification` only under `include_analysis`. The function is total: the
caller always receives a state, never an exception. -/
def run_agent (user_input : String) (state? : Option AgentState)
    (include_analysis : Bool) (fx : Effects) : AgentState :=
  let state := state?.getD {}
  let state := { state with
    messages := state.messages ++ [({ role := .human, content := user_input } : Message)] }
  match fx.invokeResult with
  | .ok result =>
    let is_planning_request :=
      planning_keywords.any (fun keyword => strContains (pyLower user_input) keyword)
    if include_analysis ∨ is_planning_request then
      let result := { result with
        github_data := some fx.daily.github_data
        daily_summary := some fx.daily }
      let response_content := ((result.messages.getLast?).map Message.content).getD ""
      let classification := classify_output response_content result.tool_calls
      let result := { result with classification := some classification }
      if should_include_effort_analysis user_input ∨ is_planning_request then
        let effort_data := calculate_schedule_effort fx.tasksRes fx.calendarRes fx.github true
        let result := { result with effort_analysis := some effort_data }
        let effort_report := format_effort_report effort_data
        { result with
          messages := appendToLastContent result.messages ("\n" ++ effort_report) }
      else result
    else result
  | .error e =>
    let state := { state with
      messages := state.messages ++ [({ role := .system, content := "❌ **Error**: " ++ e } : Message)] }
    if include_analysis then { state with classification := some "error" }
    else state

/-! ## Claim verification -/

/-- A fixed clock for concrete evaluations: 09:00 on day 0. -/
def now0 : PyDateTime := ⟨0, 9, 0, 0, 0⟩

/-- The invalid proposal used for the C1 evaluation: a `create_calendar_event`
call whose argument mapping lacks a title. -/
def missingTitleCall : ToolCall := ⟨"create_calendar_event", {}⟩

/-- C1: evaluating the Deciding-step batching at a failing input. A batch
whose every action is invalid is recorded as invalid, but — because
`response.tool_calls` is only reassigned when the valid subset is non-empty —
the batch passed on is the *unchanged original*, and `should_continue` routes
it to the tool-execution node; the claimed removal happens only when at least
one valid action remains (final conjunct). -/
theorem C1_invalid_batch_still_executed :
    (call_model_validate now0 [missingTitleCall]).2 =
      [({ tool := "create_calendar_event", args := {}, status := "invalid",
          error := some "Event title is required" } : ActionRecord)] ∧
    (call_model_validate now0 [missingTitleCall]).1 = [missingTitleCall] ∧
    should_continue [(⟨.ai, "", (call_model_validate now0 [missingTitleCall]).1⟩ : Message)] =
      some "tools" ∧
    (call_model_validate now0
        [missingTitleCall, ⟨"create_task", { title := some "Write tests" }⟩]).1 =
      [⟨"create_task", { title := some "Write tests" }⟩] := by
  refine ⟨?_, ?_, ?_, ?_⟩ <;> rfl

/-- C2 counterexample: with a pending-task source whose text carries a 2-hour
estimate and a calendar source that raises, the snapshot reports
`pending_hours = 0` — the pending-task contribution (2 hours) is *not*
unaffected, contrary to the claim. -/
theorem C2_cex :
    parsePending "- **Fix login bug** (Est: 2h)" = (2, 1) ∧
    (calculate_schedule_effort (.ok "- **Fix login bug** (Est: 2h)")
        (.error "Calendar API unavailable") (.ok ⟨[], 0⟩) true).pending_hours = 0 ∧
    (calculate_schedule_effort (.ok "- **Fix login bug** (Est: 2h)")
        (.error "Calendar API unavailable") (.ok ⟨[], 0⟩) true).pending_hours ≠
      (parsePending "- **Fix login bug** (Est: 2h)").1 := by
  have h1 : parsePending "- **Fix login bug** (Est: 2h)" = (2, 1) := by
    simp +decide [parsePending, splitLines, splitLinesAux, strContains, findEst,
      tryEstMatch, pyFloatRun, digitsVal, isPySpace]
  refine ⟨h1, rfl, ?_⟩
  rw [h1]
  norm_num [calculate_schedule_effort, unknownSnapshot]

/-- C2 (amended): when the calendar source raises, the single `try` around
the whole aggregation discards every contribution: the snapshot is the
fallback with `scheduled_hours = 0` but also `pending_hours = 0` and
`github_hours = 0`, tier "unknown"; `total_hours` still equals the (all-zero)
sum of the three reported contributions. -/
theorem C2_amended (tasks e : String) (github : Except String GithubFetch) (b : Bool) :
    (calculate_schedule_effort (.ok tasks) (.error e) github b).scheduled_hours = 0 ∧
    (calculate_schedule_effort (.ok tasks) (.error e) github b).pending_hours = 0 ∧
    (calculate_schedule_effort (.ok tasks) (.error e) github b).github_hours = 0 ∧
    (calculate_schedule_effort (.ok tasks) (.error e) github b).effort_level = "unknown" ∧
    (calculate_schedule_effort (.ok tasks) (.error e) github b).total_hours =
      (calculate_schedule_effort (.ok tasks) (.error e) github b).scheduled_hours +
      (calculate_schedule_effort (.ok tasks) (.error e) github b).pending_hours +
      (calculate_schedule_effort (.ok tasks) (.error e) github b).github_hours := by
  refine ⟨rfl, rfl, rfl, rfl, ?_⟩
  show (0 : ℚ) = 0 + 0 + 0
  norm_num

/-- C3 counterexample: a proposed `create_calendar_event` whose argument
mapping contains no duration entry is *accepted* (ok = true): the validator
substitutes the default of 1 hour, contrary to the claim that a missing
duration is rejected. -/
theorem C3_cex :
    (validate_tool_call now0 "create_calendar_event"
        { summary := some "Sync", start_time := some "now" }).1 = true := by
  simp +decide only [validate_tool_call, parse_natural_time, pyNorm, pyStrip, pyLower,
    timeMapping]
  norm_num

/-- C6: the workload-tier boundaries are exclusive on the upper bound
(3.99 → low, 4 → medium, 7.99 → medium, 8 → high, 11.99 → high,
12 → overloaded), utilization is exactly `total / 8.0 * 100`, and it is
unbounded above 100. -/
theorem C6_tier_boundaries_and_utilization :
    effortLevelOf 3.99 = "low" ∧ effortLevelOf 4.0 = "medium" ∧
    effortLevelOf 7.99 = "medium" ∧ effortLevelOf 8.0 = "high" ∧
    effortLevelOf 11.99 = "high" ∧ effortLevelOf 12.0 = "overloaded" ∧
    (∀ total_hours : ℚ, utilizationOf total_hours = total_hours / 8.0 * 100) ∧
    (∀ bound : ℚ, ∃ total_hours : ℚ,
        100 < utilizationOf total_hours ∧ bound < utilizationOf total_hours) := by
  refine ⟨by norm_num [effortLevelOf], by norm_num [effortLevelOf],
    by norm_num [effortLevelOf], by norm_num [effortLevelOf],
    by norm_num [effortLevelOf], by norm_num [effortLevelOf],
    fun _ => rfl, fun bound => ?_⟩
  have hu : utilizationOf (8 * (max bound 100 + 1) / 100) = max bound 100 + 1 := by
    unfold utilizationOf
    ring
  refine ⟨8 * (max bound 100 + 1) / 100, ?_, ?_⟩
  · rw [hu]
    have := le_max_right bound 100
    linarith
  · rw [hu]
    have := le_max_left bound 100
    linarith

/-- C9 counterexample: when the graph invocation raises and
`include_analysis` is false (its default), the returned state carries the
marked error message but its classification is *not* set to "error" — it is
absent — contrary to the claim that classification is always forced. -/
theorem C9_cex :
    (run_agent "hello" none false
        ⟨.error "Connection refused", ⟨0, 0, 0, 0, ⟨0, 0, 0, none⟩, ""⟩,
         .ok "", .ok "", .ok ⟨[], 0⟩⟩).classification = none ∧
    (run_agent "hello" none false
        ⟨.error "Connection refused", ⟨0, 0, 0, 0, ⟨0, 0, 0, none⟩, ""⟩,
         .ok "", .ok "", .ok ⟨[], 0⟩⟩).messages =
      [({ role := .human, content := "hello" } : Message),
       ({ role := .system, content := "❌ **Error**: Connection refused" } : Message)] := by
  constructor <;> rfl

/-- C9 (amended): when the graph invocation raises, `run_agent` returns (it
never raises): the user message and a marked error message are appended, and
classification is forced to "error" exactly when `include_analysis` is true;
otherwise it is left as it was in the caller-supplied state. -/
theorem C9_amended (user_input : String) (state? : Option AgentState)
    (include_analysis : Bool) (e : String) (daily : DailySummary)
    (tasksRes calendarRes : Except String String) (github : Except String GithubFetch) :
    run_agent user_input state? include_analysis
        ⟨.error e, daily, tasksRes, calendarRes, github⟩ =
      { state?.getD {} with
        messages := (state?.getD {}).messages ++
          [({ role := .human, content := user_input } : Message),
           ({ role := .system, content := "❌ **Error**: " ++ e } : Message)]
        classification := if include_analysis then some "error"
                          else (state?.getD {}).classification } := by
  unfold run_agent
  cases include_analysis <;> simp

/-- C10: any exception in the effort aggregation (either fallible source
call raising) yields the fallback snapshot: `effort_level = "unknown"` — a
value the four-tier classifier itself never produces — with every hours
figure, the utilization and the recommendation list zeroed/emptied; the
report formatter maps this fifth value to its own emoji. -/
theorem C10_unknown_fallback (e : String) :
    (∀ (calendarRes : Except String String) (github : Except String GithubFetch) (b : Bool),
        calculate_schedule_effort (.error e) calendarRes github b = unknownSnapshot e) ∧
    (∀ (tasks : String) (github : Except String GithubFetch) (b : Bool),
        calculate_schedule_effort (.ok tasks) (.error e) github b = unknownSnapshot e) ∧
    (unknownSnapshot e).effort_level = "unknown" ∧
    (unknownSnapshot e).total_hours = 0 ∧
    (unknownSnapshot e).scheduled_hours = 0 ∧
    (unknownSnapshot e).pending_hours = 0 ∧
    (unknownSnapshot e).github_hours = 0 ∧
    (unknownSnapshot e).utilization_percent = 0 ∧
    (unknownSnapshot e).analysis.recommendations = [] ∧
    (∀ q : ℚ, effortLevelOf q ≠ "unknown") ∧
    effortEmoji "unknown" = "⚪" := by
  refine ⟨fun _ _ _ => rfl, fun _ _ _ => rfl, rfl, rfl, rfl, rfl, rfl, rfl, rfl, ?_, rfl⟩
  intro q
  unfold effortLevelOf
  split_ifs <;> decide

/-- A non-empty list with a non-empty filtrate is exactly a list on which
some element satisfies the predicate (the two phrasings of "some record has
this status" used by the classifier and the spec). -/
theorem nonempty_filter_iff_any {α : Type} (l : List α) (p : α → Bool) :
    (¬l.isEmpty ∧ ¬(l.filter p).isEmpty) ↔ l.any p = true := by
  simp only [List.isEmpty_iff, List.any_eq_true, List.filter_eq_nil_iff]
  constructor
  · rintro ⟨-, hf⟩
    push_neg at hf
    obtain ⟨x, hxl, hpx⟩ := hf
    exact ⟨x, hxl, by simpa using hpx⟩
  · rintro ⟨x, hxl, hpx⟩
    refine ⟨?_, ?_⟩
    · rintro rfl
      simp at hxl
    · push_neg
      exact ⟨x, hxl, by simpa using hpx⟩

/-- A match count of at least two already implies some element matches:
the classifier's extra `any` conjunct is redundant. -/
theorem any_and_two_le_iff {α : Type} (l : List α) (p : α → Bool) :
    (l.any p = true ∧ 2 ≤ (l.filter p).length) ↔ 2 ≤ (l.filter p).length := by
  constructor
  · exact And.right
  · intro hlen
    refine ⟨?_, hlen⟩
    rw [List.any_eq_true]
    have hne : l.filter p ≠ [] := by
      intro hf
      rw [hf] at hlen
      simp at hlen
    obtain ⟨x, hx⟩ := List.exists_mem_of_ne_nil _ hne
    have := List.mem_filter.mp hx
    exact ⟨x, this.1, this.2⟩

/-- C5: the detailed classifier is exactly the deterministic, order-sensitive
first-match cascade the spec words (error keywords; else any invalid record;
else at least two distinct warning-keyword matches; else any success keyword;
else any valid record; else "info"), and the four quoted evaluations hold. -/
theorem C5_classifier_cascade :
    (∀ (response : String) (records : List ActionRecord),
        classify_output response records = classifyCascadeSpec response records) ∧
    classify_output "Task created successfully" [] = "success" ∧
    classify_output "Error: could not find repo" [] = "error" ∧
    classify_output "Several items are overdue and pending review" [] = "warning" ∧
    classify_output "Here is your schedule" [] = "info" := by
  refine ⟨?_, rfl, rfl, rfl, rfl⟩
  intro response records
  unfold classify_output classifyCascadeSpec
  dsimp only
  simp only [nonempty_filter_iff_any, any_and_two_le_iff]

/-- C3 (amended): a `create_calendar_event` proposal with a non-empty title,
a resolvable start time and *no* duration entry is accepted: the validator
substitutes the convention-based default of 1 hour (within bounds) and
writes it back into the argument mapping. -/
theorem C3_amended (now : PyDateTime) (args : ToolArgs) (title : String)
    (hsum : args.summary = some title) (ht : title ≠ "")
    (hres : ∃ t, parse_natural_time (args.start_time.getD "") now = .ok t)
    (hdur : args.duration_hours = none) :
    (validate_tool_call now "create_calendar_event" args).1 = true ∧
    (validate_tool_call now "create_calendar_event" args).2.2.duration_hours =
      some (.num 1) := by
  obtain ⟨t, hres⟩ := hres
  unfold validate_tool_call
  simp only [hsum, hdur, hres, Option.getD_some, Option.getD_none, if_pos rfl, ht,
    if_neg ht]
  norm_num

/-- C3 witness: the amended statement at a concrete input (title "Team sync",
start "now", duration absent). -/
theorem C3_amended_witness :
    (validate_tool_call now0 "create_calendar_event"
        (⟨some "Team sync", some "now", none, none, none, none, none⟩ : ToolArgs)).1 =
      true ∧
    (validate_tool_call now0 "create_calendar_event"
        (⟨some "Team sync", some "now", none, none, none, none, none⟩ : ToolArgs)).2.2.duration_hours =
      some (.num 1) :=
  C3_amended now0 ⟨some "Team sync", some "now", none, none, none, none, none⟩
    "Team sync" rfl (by decide) ⟨.dt now0, by rfl⟩ rfl

/-- C4 counterexample: the resolver is not total — on input "at 25" (which
the `at H[:MM]` pattern matches with hour 25) `datetime.replace` raises a
`ValueError`, so `resolve` raises instead of returning a result. The second
conjunct shows the input is already in normal form. -/
theorem C4_cex :
    parse_natural_time "at 25" now0 = .error "hour must be in 0..23" ∧
    pyNorm "at 25" = "at 25" := by
  constructor <;> rfl

/-- C4 (amended): the resolver raises exactly in two cases — when the
`at H[:MM]` pattern matches with an out-of-range time (converted hour above
23 or minute above 59; a `ValueError`), or when only the duration pattern
matches and the input-supplied shift overflows the datetime range (an
`OverflowError`, exhibited concretely on "in 100000000 hours"); on every
other input it returns a result, and when no lookup entry and no pattern
applies it returns the lowercased, stripped input phrase. -/
theorem C4_amended (s : String) (now : PyDateTime) :
    (∀ e, parse_natural_time s now = .error e →
      (∃ h m per, findAt (pyNorm s).data = some (h, m, per) ∧
        timeMapping now (pyNorm s) = none ∧
        (23 < adjustHour h per ∨ 59 < m)) ∨
      (∃ amount unit, findDuration (pyNorm s).data = some (amount, unit) ∧
        timeMapping now (pyNorm s) = none ∧
        findAt (pyNorm s).data = none ∧
        (if unit = "hour" then addTimedelta now (60 * amount)
         else addTimedelta now amount) = .error e)) ∧
    (timeMapping now (pyNorm s) = none → findAt (pyNorm s).data = none →
      findDuration (pyNorm s).data = none →
      parse_natural_time s now = .ok (.raw (pyNorm s))) ∧
    parse_natural_time "in 100000000 hours" now0 = .error "date value out of range" := by
  refine ⟨?_, ?_, by rfl⟩
  · intro e he
    unfold parse_natural_time at he
    dsimp only at he
    split at he
    · exact absurd he (by simp)
    · rename_i hmap
      split at he
      · rename_i h m per hat
        refine Or.inl ⟨h, m, per, hat, hmap, ?_⟩
        unfold replaceHM at he
        split_ifs at he with h1 h2 <;> simp at he <;> omega
      · rename_i hat
        split at he
        · rename_i amount unit hdur
          refine Or.inr ⟨amount, unit, hdur, hmap, hat, ?_⟩
          split at he
          · rename_i heq
            simp only [Except.error.injEq] at he
            rw [← he]
            exact heq
          · exact absurd he (by simp)
        · exact absurd he (by simp)
  · intro h1 h2 h3
    unfold parse_natural_time
    dsimp only
    rw [h1, h2, h3]

/-- C4 witness: the failure characterization applied at "at 25" — the
pattern match with its out-of-range hour is exhibited. -/
theorem C4_amended_witness :
    (∃ h m per, findAt (pyNorm "at 25").data = some (h, m, per) ∧
      timeMapping now0 (pyNorm "at 25") = none ∧
      (23 < adjustHour h per ∨ 59 < m)) ∨
    (∃ amount unit, findDuration (pyNorm "at 25").data = some (amount, unit) ∧
      timeMapping now0 (pyNorm "at 25") = none ∧
      findAt (pyNorm "at 25").data = none ∧
      (if unit = "hour" then addTimedelta now0 (60 * amount)
       else addTimedelta now0 amount) = .error "hour must be in 0..23") :=
  (C4_amended "at 25" now0).1 "hour must be in 0..23" (by rfl)

/-- C7 counterexample: "at 99" matches the `at H[:MM][am|pm]` pattern (hour
99, minute 0, no period), yet the resolver raises instead of returning that
absolute time today, contrary to the claim quantifying over every match. -/
theorem C7_cex :
    findAt (pyNorm "at 99").data = some (99, 0, none) ∧
    parse_natural_time "at 99" now0 = .error "hour must be in 0..23" := by
  constructor <;> rfl

/-- C7 (amended): for every input matching the `at` pattern (and missing the
lookup table) whose converted hour is at most 23 and minute at most 59, the
resolver returns that absolute time today, rolled forward one day when it is
strictly earlier than `now`; the 12-hour conversion adds 12 for "pm" exactly when
the hour is below 12 (hour 12 and above are left unchanged) and maps hour 12
with "am" to 0; out-of-range matches raise instead; the two quoted
evaluations hold. -/
theorem C7_amended :
    (∀ (s : String) (now : PyDateTime) (h m : Nat) (per : Option String),
       timeMapping now (pyNorm s) = none →
       findAt (pyNorm s).data = some (h, m, per) →
       adjustHour h per ≤ 23 → m ≤ 59 →
       parse_natural_time s now =
         .ok (.dt (if dtLt (setHM now (adjustHour h per) m) now then
                     addDays (setHM now (adjustHour h per) m) 1
                   else setHM now (adjustHour h per) m))) ∧
    (∀ h : Nat, h < 12 → adjustHour h (some "pm") = h + 12) ∧
    adjustHour 12 (some "pm") = 12 ∧
    adjustHour 12 (some "am") = 0 ∧
    (∀ h : Nat, ¬h < 12 → adjustHour h (some "pm") = h) ∧
    parse_natural_time "at 3pm" ⟨0, 9, 0, 0, 0⟩ = .ok (.dt ⟨0, 15, 0, 0, 0⟩) ∧
    parse_natural_time "at 3pm" ⟨0, 16, 0, 0, 0⟩ = .ok (.dt ⟨1, 15, 0, 0, 0⟩) := by
  refine ⟨?_, ?_, rfl, rfl, ?_, rfl, rfl⟩
  · intro s now h m per hmap hat hh hm2
    have hrep : replaceHM now (adjustHour h per) m =
        .ok (setHM now (adjustHour h per) m) := by
      unfold replaceHM
      rw [if_pos hh, if_pos hm2]
    unfold parse_natural_time
    dsimp only
    rw [hmap]
    dsimp only
    rw [hat]
    dsimp only
    rw [hrep]
  · intro h hlt
    unfold adjustHour
    rw [if_pos ⟨rfl, hlt⟩]
  · intro h hlt
    unfold adjustHour
    rw [if_neg (by rintro ⟨-, hlt2⟩; exact hlt hlt2),
        if_neg (by rintro ⟨hpm, -⟩; simp at hpm)]

/-- C7 witness: the general pattern statement applied at "at 3pm" with `now`
at 09:00 (hour 3, minute 0, period "pm"), every hypothesis discharged
concretely. -/
theorem C7_amended_witness :
    parse_natural_time "at 3pm" now0 =
      .ok (.dt (if dtLt (setHM now0 (adjustHour 3 (some "pm")) 0) now0 then
                  addDays (setHM now0 (adjustHour 3 (some "pm")) 0) 1
                else setHM now0 (adjustHour 3 (some "pm")) 0)) :=
  C7_amended.1 "at 3pm" now0 3 0 (some "pm") (by rfl) (by rfl) (by decide) (by decide)

/-- C8: for a `create_calendar_event` proposal with a non-empty title, a
resolvable start time and a numeric duration `d`, the validator accepts
exactly when `0.25 ≤ d ≤ 12` (both bounds inclusive); in particular
`d = 0.2` and `d = 12.5` are rejected. -/
theorem C8_duration_bounds (now : PyDateTime) (args : ToolArgs) (title : String) (d : ℚ)
    (hsum : args.summary = some title) (ht : title ≠ "")
    (hres : ∃ t, parse_natural_time (args.start_time.getD "") now = .ok t)
    (hdur : args.duration_hours = some (.num d)) :
    ((validate_tool_call now "create_calendar_event" args).1 = true ↔
      0.25 ≤ d ∧ d ≤ 12) ∧
    (d = 0.2 → (validate_tool_call now "create_calendar_event" args).1 = false) ∧
    (d = 12.5 → (validate_tool_call now "create_calendar_event" args).1 = false) := by
  obtain ⟨t, hres⟩ := hres
  unfold validate_tool_call
  simp only [hsum, hdur, hres, Option.getD_some, if_pos rfl, if_neg ht, if_true]
  refine ⟨?_, ?_, ?_⟩
  · split_ifs with h
    · refine iff_of_false (by decide) ?_
      rintro ⟨h1, h2⟩
      rcases h with h | h <;> linarith
    · push_neg at h
      exact iff_of_true rfl ⟨by linarith [h.1], h.2⟩
  · rintro rfl
    split_ifs with h
    · rfl
    · exact absurd (by norm_num : (0.2 : ℚ) < 0.25 ∨ (0.2 : ℚ) > 12) h
  · rintro rfl
    split_ifs with h
    · rfl
    · exact absurd (by norm_num : (12.5 : ℚ) < 0.25 ∨ (12.5 : ℚ) > 12) h

/-- C8 witness: the bounds statement at a concrete input (title "Meeting",
start "now", duration 1), giving acceptance. -/
theorem C8_duration_bounds_witness :
    (validate_tool_call now0 "create_calendar_event"
        (⟨some "Meeting", some "now", none, some (.num 1), none, none, none⟩ : ToolArgs)).1 =
      true :=
  ((C8_duration_bounds now0
      ⟨some "Meeting", some "now", none, some (.num 1), none, none, none⟩
      "Meeting" 1 rfl (by decide) ⟨.dt now0, by rfl⟩ rfl).1).mpr (by norm_num)

end DevFlow
